import Mathlib

/-!
Verification of the power-meter monitoring repository.

This file shallowly embeds the data model and the operations of the
repository (DatabaseService.transformPowerData / validatePowerData,
StationMonitor.updateData / saveToDatabase / handleReconnect /
waitForMessage / initializeSession steps, ChiangMaiClient.loadMonitoredObjects /
handleWSMessageALL / the per-step message waits, ApiDataFetcher.isApiStation /
fetchAndProcess, StationAnalyzer.analyzeStations) and proves or refutes the
frozen claims about them.

Raw JavaScript values that flow through the pipeline are modelled by
`RawValue`: a value that parseFloat accepts becomes `num q` (a rational,
standing for the parsed number), a value on which parseFloat yields NaN is
`nonNum`, the JS `null` is `nullv` (parseFloat(null) is NaN, and
`typeof null` is "object"), and a non-null object is `objVal`.
-/

inductive RawValue where
  | num (q : Rat)
  | nonNum
  | nullv
  | objVal
  deriving DecidableEq, Repr

/-- parseFloat as used throughout the source: a number on success, NaN
(modelled as `none`) on failure. -/
def parseNum : RawValue → Option Rat
  | .num q => some q
  | _ => none

/-- A JS object holding raw readings keyed by strings (raw object IDs or
direct field names), as an association list with first-match lookup. -/
abbrev Frame := List (String × RawValue)

/-- The dbData object built by transformPowerData: semantic field name to
either absent (`none`) or a value that is itself null (`some none`) or a
number (`some (some q)`). -/
abbrev DbData := String → Option (Option Rat)

/-- JS object property assignment dbData[k] = v. -/
def jsSet (m : DbData) (k : String) (v : Option Rat) : DbData :=
  fun s => if s = k then some v else m s

/-- The activePowerMap table of DatabaseService.transformPowerData
(src/unnamed/part_001 lines 588-595). JS Object.entries iterates
integer-like keys in ascending numeric order, which is the order given. -/
def activePowerMap : List (String × String) :=
  [("8684", "activePower1"),
   ("8685", "activePower2"),
   ("8686", "activePower3"),
   ("8687", "activePower4"),
   ("8688", "activePower5"),
   ("8689", "activePower6")]

/-- The muxPowerMap table of DatabaseService.transformPowerData
(src/unnamed/part_001 lines 598-612), listed in ascending numeric key
order because JS Object.entries iterates integer-like keys ascending;
several raw IDs alias onto the same field, and the entry latest in this
order overwrites earlier ones when both raw IDs occur in one frame. -/
def muxPowerMap : List (String × String) :=
  [("18053", "muxPower6"),
   ("18069", "muxPower1"),
   ("18070", "muxPower2"),
   ("73909", "muxPower3"),
   ("73910", "muxPower4"),
   ("75428", "muxPower5"),
   ("75429", "muxPower6"),
   ("75432", "muxPower5"),
   ("75441", "muxPower5"),
   ("75483", "muxPower5"),
   ("75484", "muxPower6"),
   ("75519", "muxPower6"),
   ("224272", "muxPower5")]

/-- The directFields list of DatabaseService.transformPowerData
(src/unnamed/part_001 lines 631-644). -/
def directFields : List String :=
  ["activePower1", "activePower2", "activePower3",
   "activePower4", "activePower5", "activePower6",
   "muxPower1", "muxPower2", "muxPower3",
   "muxPower4", "muxPower5", "muxPower6"]

/-- One step of the table transforms: if powerData has the raw ID as a
property, set dbData[field] to the parsed value (null when NaN). -/
def applyMapEntry (pd : Frame) (m : DbData) (e : String × String) : DbData :=
  match List.lookup e.1 pd with
  | some v => jsSet m e.2 (parseNum v)
  | none => m

/-- One step of the direct-field transform: if powerData has the field name
itself as a property, set dbData[field] likewise. -/
def applyDirectField (pd : Frame) (m : DbData) (f : String) : DbData :=
  match List.lookup f pd with
  | some v => jsSet m f (parseNum v)
  | none => m

/-- DatabaseService.transformPowerData (src/unnamed/part_001 lines 580-654):
apply the activePowerMap entries, then the muxPowerMap entries, then the
direct field names, each assignment overwriting any earlier one. -/
def transformPowerData (pd : Frame) : DbData :=
  directFields.foldl (applyDirectField pd)
    (muxPowerMap.foldl (applyMapEntry pd)
      (activePowerMap.foldl (applyMapEntry pd) (fun _ => none)))

/-- The semantic field names transformPowerData can ever populate. -/
def knownFields : List String :=
  activePowerMap.map Prod.snd ++ muxPowerMap.map Prod.snd ++ directFields

lemma foldl_applyMapEntry_apply_of_not_mem (pd : Frame) (tbl : List (String × String))
    (m : DbData) (s : String) (h : s ∉ tbl.map Prod.snd) :
    (tbl.foldl (applyMapEntry pd) m) s = m s := by
  induction tbl generalizing m with
  | nil => rfl
  | cons e t ih =>
      simp only [List.map_cons, List.mem_cons] at h
      push_neg at h
      simp only [List.foldl_cons]
      rw [ih _ h.2]
      unfold applyMapEntry
      cases List.lookup e.1 pd with
      | none => rfl
      | some v => simp [jsSet, h.1]

lemma foldl_applyDirectField_apply_of_not_mem (pd : Frame) (fs : List String)
    (m : DbData) (s : String) (h : s ∉ fs) :
    (fs.foldl (applyDirectField pd) m) s = m s := by
  induction fs generalizing m with
  | nil => rfl
  | cons f t ih =>
      simp only [List.mem_cons] at h
      push_neg at h
      simp only [List.foldl_cons]
      rw [ih _ h.2]
      unfold applyDirectField
      cases List.lookup f pd with
      | none => rfl
      | some v => simp [jsSet, h.1]

/-- Fields outside the three tables are never populated. -/
lemma transformPowerData_eq_none_of_not_known (pd : Frame) (s : String)
    (h : s ∉ knownFields) : transformPowerData pd s = none := by
  unfold knownFields at h
  simp only [List.mem_append] at h
  push_neg at h
  unfold transformPowerData
  rw [foldl_applyDirectField_apply_of_not_mem _ _ _ _ h.2,
      foldl_applyMapEntry_apply_of_not_mem _ _ _ _ h.1.2,
      foldl_applyMapEntry_apply_of_not_mem _ _ _ _ h.1.1]

lemma lookup_cons_of_ne (k id : String) (v : RawValue) (pd : Frame) (h : k ≠ id) :
    List.lookup k ((id, v) :: pd) = List.lookup k pd := by
  have hb : (k == id) = false := beq_eq_false_iff_ne.mpr h
  simp [List.lookup, hb]

lemma foldl_applyMapEntry_congr (pd1 pd2 : Frame) (tbl : List (String × String))
    (m : DbData) (h : ∀ e ∈ tbl, List.lookup e.1 pd1 = List.lookup e.1 pd2) :
    tbl.foldl (applyMapEntry pd1) m = tbl.foldl (applyMapEntry pd2) m := by
  induction tbl generalizing m with
  | nil => rfl
  | cons e t ih =>
      simp only [List.foldl_cons]
      rw [show applyMapEntry pd1 m e = applyMapEntry pd2 m e by
            unfold applyMapEntry; rw [h e (List.mem_cons_self e t)]]
      exact ih _ (fun x hx => h x (List.mem_cons_of_mem e hx))

lemma foldl_applyDirectField_congr (pd1 pd2 : Frame) (fs : List String)
    (m : DbData) (h : ∀ f ∈ fs, List.lookup f pd1 = List.lookup f pd2) :
    fs.foldl (applyDirectField pd1) m = fs.foldl (applyDirectField pd2) m := by
  induction fs generalizing m with
  | nil => rfl
  | cons f t ih =>
      simp only [List.foldl_cons]
      rw [show applyDirectField pd1 m f = applyDirectField pd2 m f by
            unfold applyDirectField; rw [h f (List.mem_cons_self f t)]]
      exact ih _ (fun x hx => h x (List.mem_cons_of_mem f hx))

/-- Adding a property whose key is none of the table keys and none of the
direct field names leaves transformPowerData unchanged. -/
lemma transformPowerData_cons_unknown (pd : Frame) (id : String) (v : RawValue)
    (ha : id ∉ activePowerMap.map Prod.fst)
    (hm : id ∉ muxPowerMap.map Prod.fst)
    (hd : id ∉ directFields) :
    transformPowerData ((id, v) :: pd) = transformPowerData pd := by
  unfold transformPowerData
  rw [foldl_applyMapEntry_congr ((id, v) :: pd) pd activePowerMap _
        (fun e he => lookup_cons_of_ne _ _ _ _
          (fun hk => ha (hk ▸ List.mem_map_of_mem Prod.fst he))),
      foldl_applyMapEntry_congr ((id, v) :: pd) pd muxPowerMap _
        (fun e he => lookup_cons_of_ne _ _ _ _
          (fun hk => hm (hk ▸ List.mem_map_of_mem Prod.fst he))),
      foldl_applyDirectField_congr ((id, v) :: pd) pd directFields _
        (fun f hf => lookup_cons_of_ne _ _ _ _ (fun hk => hd (hk ▸ hf)))]

/-!
ChiangMaiClient per-frame pipeline (src/chaigmai.js): loadMonitoredObjects
keeps only the objectIds of the station map (field names are used for
display labels only), initializeMeterData fills meterData with null per
monitored id, handleWSMessageALL copies changed sync values for monitored
ids into meterData, and saveToDatabase hands meterData to
DatabaseService.createPowerReading, which resolves it through
transformPowerData.
-/

/-- JS object assignment on an association list: overwrite the existing
property in place, else append it. -/
def setKey : Frame → String → RawValue → Frame
  | [], k, v => [(k, v)]
  | (k0, v0) :: t, k, v =>
      if k0 = k then (k0, v) :: t else (k0, v0) :: setKey t k v

/-- ChiangMaiClient.initializeMeterData (src/chaigmai.js lines 446-452):
meterData starts with null for every monitored object id. -/
def initMeterData (monitored : List Nat) : Frame :=
  monitored.map (fun id => (toString id, RawValue.nullv))

/-- The meterData update of ChiangMaiClient.handleWSMessageALL
(src/chaigmai.js lines 327-336) and likewise StationMonitor.updateData:
for each monitored id present in the sync object whose value differs from
the buffered one, store the new value and flag a change. -/
def updateMeter (monitored : List Nat) (meter : Frame) (sync : Frame) : Frame × Bool :=
  monitored.foldl
    (fun acc id =>
      match List.lookup (toString id) sync with
      | some v =>
          if List.lookup (toString id) acc.1 = some v then acc
          else (setKey acc.1 (toString id) v, true)
      | none => acc)
    (meter, false)

/-- One frame through the ChiangMai pipeline from a fresh session: meterData
initialised to nulls, updated by the sync object, then resolved by
transformPowerData. -/
def normalizeFrameCM (monitored : List Nat) (sync : Frame) : DbData :=
  transformPowerData (updateMeter monitored (initMeterData monitored) sync).1

/-- DatabaseService.getStationMonitoredObjects builds objectIds from the
station map rows and ChiangMaiClient.loadMonitoredObjects keeps exactly that
list (src/unnamed/part_001 lines 393-415, src/chaigmai.js lines 409-443);
the objectType names of the station map are used only for display labels. -/
def loadedObjectIds (objectMap : List (String × Nat)) : List Nat :=
  objectMap.map Prod.snd

/-- The full station pipeline for one frame, starting from the loaded
per-station monitored-object map. -/
def stationPipeline (objectMap : List (String × Nat)) (sync : Frame) : DbData :=
  normalizeFrameCM (loadedObjectIds objectMap) sync

/-- Claim C1 (counterexample): station map claims raw ID 224272 for field
muxPower6, yet normalization of a frame carrying 224272 populates muxPower5
(the global-table alias) and leaves muxPower6 absent — the station map does
not take precedence over the global alias table. -/
theorem station_map_no_precedence_counterexample :
    stationPipeline [("muxPower6", 224272)] [("224272", RawValue.num 5)] "muxPower5"
        = some (some 5)
    ∧ stationPipeline [("muxPower6", 224272)] [("224272", RawValue.num 5)] "muxPower6"
        = none := by
  constructor <;> decide

/-- Claim C1 (amended): resolution of raw IDs to semantic fields is done
solely by the fixed global tables of transformPowerData, identically for
every station: the station map contributes only its objectIds (two station
maps with the same objectIds yield identical normalization regardless of
their field names), and when several raw IDs of the mux alias table occur
in one frame for the same field, the entry latest in the ascending
numeric-key iteration order wins, independently of frame order. -/
theorem resolution_ignores_station_fields :
    (∀ om1 om2 sync, loadedObjectIds om1 = loadedObjectIds om2 →
        stationPipeline om1 sync = stationPipeline om2 sync)
    ∧ transformPowerData [("75428", RawValue.num 1), ("224272", RawValue.num 2)]
        "muxPower5" = some (some 2)
    ∧ transformPowerData [("224272", RawValue.num 2), ("75428", RawValue.num 1)]
        "muxPower5" = some (some 2) := by
  refine ⟨?_, by decide, by decide⟩
  intro om1 om2 sync h
  unfold stationPipeline
  rw [h]

/-- Witness for resolution_ignores_station_fields at concrete inputs. -/
theorem resolution_ignores_station_fields_witness :
    stationPipeline [("muxPower6", 224272)] [("224272", RawValue.num 5)]
      = stationPipeline [("muxPower5", 224272)] [("224272", RawValue.num 5)] :=
  resolution_ignores_station_fields.1
    [("muxPower6", 224272)] [("muxPower5", 224272)] [("224272", RawValue.num 5)] rfl

lemma updateMeter_fold_congr (monitored : List Nat) (sync1 sync2 : Frame)
    (acc : Frame × Bool)
    (h : ∀ id ∈ monitored, List.lookup (toString id) sync1 = List.lookup (toString id) sync2) :
    monitored.foldl
      (fun acc id =>
        match List.lookup (toString id) sync1 with
        | some v =>
            if List.lookup (toString id) acc.1 = some v then acc
            else (setKey acc.1 (toString id) v, true)
        | none => acc) acc
    = monitored.foldl
      (fun acc id =>
        match List.lookup (toString id) sync2 with
        | some v =>
            if List.lookup (toString id) acc.1 = some v then acc
            else (setKey acc.1 (toString id) v, true)
        | none => acc) acc := by
  induction monitored generalizing acc with
  | nil => rfl
  | cons id t ih =>
      simp only [List.foldl_cons]
      rw [h id (List.mem_cons_self id t)]
      cases List.lookup (toString id) sync2 with
      | none => exact ih _ (fun x hx => h x (List.mem_cons_of_mem id hx))
      | some v =>
          simp only []
          split <;> exact ih _ (fun x hx => h x (List.mem_cons_of_mem id hx))

/-- Claim C5: a raw ID absent from the station's monitored-object list and
from all the global tables is silently dropped — the normalized reading is
unchanged by its presence, and no field outside the known semantic fields
is ever populated (so the unknown ID never surfaces, not even as null). -/
theorem unknown_raw_id_dropped (monitored : List Nat) (sync : Frame)
    (id : String) (v : RawValue)
    (hstation : id ∉ monitored.map toString)
    (_ha : id ∉ activePowerMap.map Prod.fst)
    (_hm : id ∉ muxPowerMap.map Prod.fst)
    (_hd : id ∉ directFields) :
    normalizeFrameCM monitored ((id, v) :: sync) = normalizeFrameCM monitored sync
    ∧ ∀ s, s ∉ knownFields → normalizeFrameCM monitored ((id, v) :: sync) s = none := by
  refine ⟨?_, fun s hs => transformPowerData_eq_none_of_not_known _ s hs⟩
  unfold normalizeFrameCM updateMeter
  rw [updateMeter_fold_congr monitored ((id, v) :: sync) sync _
        (fun x hx => lookup_cons_of_ne _ _ _ _
          (fun hk => hstation (hk ▸ List.mem_map_of_mem toString hx)))]

/-- Witness for unknown_raw_id_dropped: raw ID 99999 is unknown everywhere
and its presence changes nothing. -/
theorem unknown_raw_id_dropped_witness :
    normalizeFrameCM [8684] (("99999", RawValue.num 7) :: [("8684", RawValue.num 1)])
      = normalizeFrameCM [8684] [("8684", RawValue.num 1)]
    ∧ normalizeFrameCM [8684] (("99999", RawValue.num 7) :: [("8684", RawValue.num 1)])
        "99999" = none := by
  have h := unknown_raw_id_dropped [8684] [("8684", RawValue.num 1)]
    "99999" (RawValue.num 7) (by decide) (by decide) (by decide) (by decide)
  exact ⟨h.1, h.2 "99999" (by decide)⟩

/-!
DatabaseService.validatePowerData (src/unnamed/part_001 lines 661-711).
Object-typed values are skipped (`typeof null` is "object" in JS, so null
values are skipped too).  For an unparseable value the warning is pushed
only when Math.random() is below 0.1; the random draw for an entry is
modelled by the oracle `coin`.  Range checks push advisory warnings.
isValid turns false only when powerData is not an object, which is outside
the embedded domain (`Frame` is always an object), so isValid is true here.
-/

inductive VWarn where
  | invalidNumeric (id : String)
  | activeRange (id : String)
  | muxRange (id : String)
  deriving DecidableEq, Repr

structure ValidationResult where
  isValid : Bool
  errors : List String
  warnings : List VWarn
  deriving DecidableEq, Repr

/-- The raw IDs subject to the MUX range check. -/
def muxRangeIds : List Nat := [18069, 18070, 73909, 73910, 75428, 75429]

/-- One entry of the validation loop. -/
def validateEntry (coin : String → Bool) (ws : List VWarn) (e : String × RawValue) :
    List VWarn :=
  match e.2 with
  | .objVal => ws
  | .nullv => ws
  | .nonNum => if coin e.1 then ws ++ [VWarn.invalidNumeric e.1] else ws
  | .num q =>
      match String.toNat? e.1 with
      | some n =>
          if 8684 ≤ n ∧ n ≤ 8689 then
            if q < 0 ∨ 100000 < q then ws ++ [VWarn.activeRange e.1] else ws
          else if n ∈ muxRangeIds then
            if q < 0 ∨ 1000000000 < q then ws ++ [VWarn.muxRange e.1] else ws
          else ws
      | none => ws

/-- DatabaseService.validatePowerData over an object input. -/
def validatePowerData (pd : Frame) (coin : String → Bool) : ValidationResult :=
  { isValid := true
    errors := []
    warnings := pd.foldl (validateEntry coin) [] }

/-- Claim C6 (counterexample): an unparseable numeric value for raw ID 8684
produces NO recorded warning when the random 10% sampling draw fails, even
though the value failed to parse — the failure is not reliably recorded as
a warning. -/
theorem parse_failure_warning_sampled_counterexample :
    (validatePowerData [("8684", RawValue.nonNum)] (fun _ => false)).warnings = []
    ∧ parseNum RawValue.nonNum = none
    ∧ (validatePowerData [("8684", RawValue.nonNum)] (fun _ => false)).isValid = true := by
  exact ⟨rfl, rfl, rfl⟩

/-- Claim C6 (amended): an unparseable value never rejects the frame
(isValid stays true so saveToDatabase proceeds to persist the reading), the
value is downgraded to null for its semantic field, and the parse failure
is recorded as a warning only when the random 10% sampling draw admits it
(about one time in ten), not always. -/
theorem parse_failure_downgraded_to_null :
    (∀ pd coin, (validatePowerData pd coin).isValid = true)
    ∧ (∀ v, parseNum v = none →
        transformPowerData [("8684", v)] "activePower1" = some none)
    ∧ (∀ id coin, (validatePowerData [(id, RawValue.nonNum)] coin).warnings
        = if coin id then [VWarn.invalidNumeric id] else []) := by
  refine ⟨fun pd coin => rfl, ?_, fun id coin => rfl⟩
  intro v h
  simp [transformPowerData, activePowerMap, muxPowerMap, directFields,
    applyMapEntry, applyDirectField, List.lookup, jsSet, h]

/-- Witness for parse_failure_downgraded_to_null at concrete inputs. -/
theorem parse_failure_downgraded_to_null_witness :
    (validatePowerData [("8684", RawValue.nonNum)] (fun _ => true)).isValid = true
    ∧ transformPowerData [("8684", RawValue.nonNum)] "activePower1" = some none
    ∧ (validatePowerData [("8684", RawValue.nonNum)] (fun _ => true)).warnings
        = [VWarn.invalidNumeric "8684"] :=
  ⟨parse_failure_downgraded_to_null.1 [("8684", RawValue.nonNum)] (fun _ => true),
   parse_failure_downgraded_to_null.2.1 RawValue.nonNum rfl,
   parse_failure_downgraded_to_null.2.2 "8684" (fun _ => true)⟩

/-!
The persistence throttle of StationMonitor.saveToDatabase
(src/unnamed/part_007 lines 289-330) and ChiangMaiClient.saveToDatabase
(src/chaigmai.js lines 494-551): a changed reading triggers a write only
when no write happened within the previous dbSaveInterval milliseconds;
otherwise the method returns without persisting anything, and nothing is
deferred to the end of the window.  A write records the cumulative data
buffer at that moment and re-arms the window.  Times are in milliseconds.
-/

def dbSaveInterval : Nat := 10000

structure SaveState where
  lastDbSave : Option Nat
  writes : List (Nat × Frame)
  deriving DecidableEq, Repr

/-- One invocation of saveToDatabase with a changed buffer `buf` at time
`t` (validation always passes on object input, see validatePowerData). -/
def saveToDatabaseStep (st : SaveState) (t : Nat) (buf : Frame) : SaveState :=
  match st.lastDbSave with
  | some t0 =>
      if t - t0 < dbSaveInterval then st
      else { lastDbSave := some t, writes := st.writes ++ [(t, buf)] }
  | none => { lastDbSave := some t, writes := st.writes ++ [(t, buf)] }

/-- A sequence of changed readings (time, buffer) fed to saveToDatabase
from a fresh monitor. -/
def runSave (evs : List (Nat × Frame)) : SaveState :=
  evs.foldl (fun st e => saveToDatabaseStep st e.1 e.2) ⟨none, []⟩

lemma runSave_frozen (evs : List (Nat × Frame)) (st : SaveState) (t1 : Nat)
    (hlast : st.lastDbSave = some t1)
    (h : ∀ e ∈ evs, e.1 - t1 < dbSaveInterval) :
    evs.foldl (fun st e => saveToDatabaseStep st e.1 e.2) st = st := by
  induction evs with
  | nil => rfl
  | cons e t ih =>
      simp only [List.foldl_cons]
      rw [show saveToDatabaseStep st e.1 e.2 = st by
            unfold saveToDatabaseStep
            rw [hlast]
            simp [h e (List.mem_cons_self e t)]]
      exact ih (fun x hx => h x (List.mem_cons_of_mem e hx))

/-- Claim C2 (counterexample): two changed readings 5 seconds apart fall in
one debounce window; exactly one write happens, but it carries the FIRST
reading of the window, not the most recent one (the claim says the most
recent changed reading in the window is the one written). -/
theorem debounce_last_reading_counterexample :
    runSave [(0, [("8684", RawValue.num 1)]), (5000, [("8684", RawValue.num 2)])]
      = ⟨some 0, [(0, [("8684", RawValue.num 1)])]⟩
    ∧ [("8684", RawValue.num 1)] ≠ [("8684", RawValue.num 2)] := by
  constructor <;> decide

/-- Claim C2 (amended): a changed reading arriving when no write occurred
in the preceding dbSaveInterval is written immediately and opens a window;
every changed reading arriving within dbSaveInterval of that write is
dropped entirely (not deferred), so a burst of N changed readings starting
outside any window yields exactly one write, carrying the first reading of
the burst. -/
theorem debounce_first_write_wins :
    (∀ (t1 : Nat) (b1 : Frame) (evs : List (Nat × Frame)),
        (∀ e ∈ evs, e.1 - t1 < dbSaveInterval) →
        runSave ((t1, b1) :: evs) = ⟨some t1, [(t1, b1)]⟩)
    ∧ (∀ (t1 t2 : Nat) (b1 b2 : Frame), dbSaveInterval ≤ t2 - t1 →
        runSave [(t1, b1), (t2, b2)] = ⟨some t2, [(t1, b1), (t2, b2)]⟩) := by
  constructor
  · intro t1 b1 evs h
    unfold runSave
    simp only [List.foldl_cons]
    exact runSave_frozen evs ⟨some t1, [(t1, b1)]⟩ t1 rfl h
  · intro t1 t2 b1 b2 h
    unfold runSave saveToDatabaseStep
    simp [Nat.not_lt.mpr h]

/-- Witness for debounce_first_write_wins at concrete inputs. -/
theorem debounce_first_write_wins_witness :
    runSave [(0, [("8684", RawValue.num 1)]), (3000, [("8684", RawValue.num 2)]),
             (9999, [("8684", RawValue.num 3)])]
      = ⟨some 0, [(0, [("8684", RawValue.num 1)])]⟩
    ∧ runSave [(0, [("8684", RawValue.num 1)]), (10000, [("8684", RawValue.num 2)])]
      = ⟨some 10000, [(0, [("8684", RawValue.num 1)]), (10000, [("8684", RawValue.num 2)])]⟩ :=
  ⟨debounce_first_write_wins.1 0 [("8684", RawValue.num 1)]
      [(3000, [("8684", RawValue.num 2)]), (9999, [("8684", RawValue.num 3)])]
      (by decide),
   debounce_first_write_wins.2 0 10000 [("8684", RawValue.num 1)]
      [("8684", RawValue.num 2)] (by decide)⟩

/-!
StationMonitor per-frame pipeline (src/unnamed/part_007):
updateData (lines 264-286) compares each monitored id of an inbound sync
object against dataBuffer (initially empty), stores changed values and,
when at least one changed, calls saveToDatabase (the throttle embedded
above as saveToDatabaseStep).
-/

structure PipeState where
  buffer : Frame
  lastDbSave : Option Nat
  writes : List (Nat × Frame)
  deriving DecidableEq, Repr

/-- The saveToDatabase call made from updateData, on the pipeline state. -/
def pipeSave (st : PipeState) (t : Nat) : PipeState :=
  match st.lastDbSave with
  | some t0 =>
      if t - t0 < dbSaveInterval then st
      else { st with lastDbSave := some t, writes := st.writes ++ [(t, st.buffer)] }
  | none => { st with lastDbSave := some t, writes := st.writes ++ [(t, st.buffer)] }

/-- StationMonitor.updateData for one sync frame arriving at time t. -/
def updateData (monitored : List Nat) (st : PipeState) (t : Nat) (sync : Frame) :
    PipeState :=
  let acc := updateMeter monitored st.buffer sync
  if acc.2 then pipeSave { st with buffer := acc.1 } t
  else { st with buffer := acc.1 }

/-- A sequence of frames (time, sync object) through a fresh
StationMonitor (dataBuffer starts empty). -/
def runPipeline (monitored : List Nat) (evs : List (Nat × Frame)) : PipeState :=
  evs.foldl (fun st e => updateData monitored st e.1 e.2) ⟨[], none, []⟩

/-- Claim C8 (counterexample): two consecutive frames that differ in
exactly one field, 3 seconds apart, give only ONE persisted write in
total — the changed second frame falls inside the debounce window and is
not persisted, against the claim that it results in exactly one additional
write. -/
theorem dedupe_changed_frame_dropped_counterexample :
    (runPipeline [8684] [(0, [("8684", RawValue.num 1)]),
                         (3000, [("8684", RawValue.num 2)])]).writes
      = [(0, [("8684", RawValue.num 1)])]
    ∧ [("8684", RawValue.num 1)] ≠ [("8684", RawValue.num 2)] := by
  constructor <;> decide

/-- Claim C8 (amended): two consecutive frames with identical field values
give exactly one write (the first); two consecutive frames differing in one
field give one additional write exactly when the second frame arrives at
least dbSaveInterval after the first write, and no additional write when it
arrives inside the window (the change only updates the in-memory buffer). -/
theorem dedupe_and_debounce_interplay :
    (∀ t1 t2 : Nat,
        runPipeline [8684] [(t1, [("8684", RawValue.num 1)]),
                            (t2, [("8684", RawValue.num 1)])]
          = ⟨[("8684", RawValue.num 1)], some t1, [(t1, [("8684", RawValue.num 1)])]⟩)
    ∧ (∀ t1 t2 : Nat, dbSaveInterval ≤ t2 - t1 →
        runPipeline [8684] [(t1, [("8684", RawValue.num 1)]),
                            (t2, [("8684", RawValue.num 2)])]
          = ⟨[("8684", RawValue.num 2)], some t2,
             [(t1, [("8684", RawValue.num 1)]), (t2, [("8684", RawValue.num 2)])]⟩)
    ∧ (∀ t1 t2 : Nat, t2 - t1 < dbSaveInterval →
        runPipeline [8684] [(t1, [("8684", RawValue.num 1)]),
                            (t2, [("8684", RawValue.num 2)])]
          = ⟨[("8684", RawValue.num 2)], some t1, [(t1, [("8684", RawValue.num 1)])]⟩) := by
  refine ⟨?_, ?_, ?_⟩
  · intro t1 t2
    unfold runPipeline
    simp only [List.foldl_cons, List.foldl_nil]
    rfl
  · intro t1 t2 h
    unfold runPipeline
    simp only [List.foldl_cons, List.foldl_nil]
    show updateData [8684]
        ⟨[("8684", RawValue.num 1)], some t1, [(t1, [("8684", RawValue.num 1)])]⟩ t2
        [("8684", RawValue.num 2)] = _
    unfold updateData
    rw [show updateMeter [8684] [("8684", RawValue.num 1)] [("8684", RawValue.num 2)]
          = ([("8684", RawValue.num 2)], true) from by decide]
    simp [pipeSave, Nat.not_lt.mpr h]
  · intro t1 t2 h
    unfold runPipeline
    simp only [List.foldl_cons, List.foldl_nil]
    show updateData [8684]
        ⟨[("8684", RawValue.num 1)], some t1, [(t1, [("8684", RawValue.num 1)])]⟩ t2
        [("8684", RawValue.num 2)] = _
    unfold updateData
    rw [show updateMeter [8684] [("8684", RawValue.num 1)] [("8684", RawValue.num 2)]
          = ([("8684", RawValue.num 2)], true) from by decide]
    simp [pipeSave, h]

/-- Witness for dedupe_and_debounce_interplay at concrete inputs. -/
theorem dedupe_and_debounce_interplay_witness :
    runPipeline [8684] [(0, [("8684", RawValue.num 1)]),
                        (3000, [("8684", RawValue.num 1)])]
      = ⟨[("8684", RawValue.num 1)], some 0, [(0, [("8684", RawValue.num 1)])]⟩
    ∧ runPipeline [8684] [(0, [("8684", RawValue.num 1)]),
                          (10000, [("8684", RawValue.num 2)])]
      = ⟨[("8684", RawValue.num 2)], some 10000,
         [(0, [("8684", RawValue.num 1)]), (10000, [("8684", RawValue.num 2)])]⟩ :=
  ⟨dedupe_and_debounce_interplay.1 0 3000,
   dedupe_and_debounce_interplay.2.1 0 10000 (by decide)⟩

/-!
Session handshake (StationMonitor.initializeSession, src/unnamed/part_007
lines 134-227; the same sequential await structure appears in
ChiangMaiClient.setUpSession, src/chaigmai.js lines 130-254).  Each step
sends one request and then waits for the first inbound message satisfying
the step's validator; messages failing the validator are skipped.  Inbound
messages are modelled by `Msg`; `RpcResult.usid s` stands for a result
object carrying a USID string (truthy only when non-empty),
`RpcResult.flag b` for a boolean result, `RpcResult.plain` for anything
else.
-/

inductive RpcResult where
  | usid (s : String)
  | flag (b : Bool)
  | plain
  deriving DecidableEq, Repr

structure Msg where
  id : Int
  result : RpcResult
  cached : Bool
  deriving DecidableEq, Repr

def mkMsg (i : Int) (r : RpcResult) : Msg := ⟨i, r, false⟩

/-- Step 1 validator: msg.id === 0 && msg.result?.USID (truthy). -/
def sessionValidator (m : Msg) : Bool :=
  m.id == 0 && (match m.result with | .usid s => !(s == "") | _ => false)

/-- Validator for the boolean-result steps: msg.id === k && msg.result === true. -/
def flagValidator (k : Int) (m : Msg) : Bool :=
  m.id == k && (m.result == RpcResult.flag true)

/-- Validator for the id-match-only steps: msg.id === k. -/
def idValidator (k : Int) (m : Msg) : Bool :=
  m.id == k

/-- The eight steps of StationMonitor.initializeSession in source order:
restoreSession, subscribeNotification, setUpdateRate, loadScriptInfo,
loadDashboards, loadScriptInfo, loadScene, registerActiveObjects. -/
def stepValidators : List (Msg → Bool) :=
  [sessionValidator,
   flagValidator 1,
   flagValidator 2,
   idValidator 3,
   idValidator 4,
   idValidator 5,
   idValidator 6,
   flagValidator 7]

inductive HEvent where
  | send (k : Nat)
  | recv (k : Nat)
  deriving DecidableEq, Repr

/-- waitForMessage on an untimed stream: skip messages failing the
validator, return the stream remainder after the first match. -/
def scanFirst (p : Msg → Bool) : List Msg → Option (List Msg)
  | [] => none
  | m :: rest => if p m then some rest else scanFirst p rest

/-- Run the handshake steps in order from step index k: send the request,
wait for its matching response, continue; a step that never matches aborts
the whole handshake (`none`).  On success the trace of send/recv events is
returned. -/
def runStepsFrom (k : Nat) : List (Msg → Bool) → List Msg → Option (List HEvent)
  | [], _ => some []
  | p :: ps, stream =>
      match scanFirst p stream with
      | some rest =>
          (runStepsFrom (k + 1) ps rest).map
            (fun tr => HEvent.send k :: HEvent.recv k :: tr)
      | none => none

/-- The whole initializeSession handshake over an inbound stream; `some`
means the supervisor reached the streaming state (startMonitoring). -/
def runHandshake (stream : List Msg) : Option (List HEvent) :=
  runStepsFrom 0 stepValidators stream

/-- The only possible event trace of n successful steps from index k. -/
def canonicalTrace : Nat → Nat → List HEvent
  | _, 0 => []
  | k, n + 1 => HEvent.send k :: HEvent.recv k :: canonicalTrace (k + 1) n

def fullHandshakeTrace : List HEvent := canonicalTrace 0 8

lemma runStepsFrom_eq_canonical (ps : List (Msg → Bool)) :
    ∀ (k : Nat) (stream : List Msg) (tr : List HEvent),
      runStepsFrom k ps stream = some tr → tr = canonicalTrace k ps.length := by
  induction ps with
  | nil =>
      intro k stream tr h
      simp only [runStepsFrom] at h
      cases h
      rfl
  | cons p ps ih =>
      intro k stream tr h
      simp only [runStepsFrom] at h
      cases hscan : scanFirst p stream with
      | none => simp only [hscan] at h; cases h
      | some rest =>
          simp only [hscan] at h
          cases hrec : runStepsFrom (k + 1) ps rest with
          | none => rw [hrec] at h; simp at h
          | some tr0 =>
              rw [hrec] at h
              simp at h
              subst h
              simp only [List.length_cons, canonicalTrace]
              rw [ih (k + 1) rest tr0 hrec]

lemma scanFirst_eq_none (p : Msg → Bool) (stream : List Msg)
    (h : ∀ m ∈ stream, p m = false) : scanFirst p stream = none := by
  induction stream with
  | nil => rfl
  | cons m rest ih =>
      simp only [scanFirst, h m (List.mem_cons_self m rest), Bool.false_eq_true,
        if_false]
      exact ih (fun x hx => h x (List.mem_cons_of_mem m hx))

/-- Claim C3: the handshake is strictly ordered — any successful run has
the canonical trace in which every request is sent only after the previous
step's response was received; in that trace the session-token response
(recv 0) precedes the object-registration request (send 7); a stream with
no valid session-token response never completes the handshake (the
supervisor cannot reach streaming), in particular a transport that answers
the registration step before step 1 stalls the handshake. -/
theorem handshake_strictly_ordered :
    (∀ stream tr, runHandshake stream = some tr → tr = fullHandshakeTrace)
    ∧ fullHandshakeTrace.get? 1 = some (HEvent.recv 0)
    ∧ fullHandshakeTrace.get? 14 = some (HEvent.send 7)
    ∧ (∀ stream, (∀ m ∈ stream, sessionValidator m = false) →
        runHandshake stream = none)
    ∧ runHandshake [mkMsg 7 (RpcResult.flag true), mkMsg 0 (RpcResult.usid "U1")]
        = none := by
  refine ⟨?_, by decide, by decide, ?_, by decide⟩
  · intro stream tr h
    exact runStepsFrom_eq_canonical stepValidators 0 stream tr h
  · intro stream h
    unfold runHandshake stepValidators
    simp only [runStepsFrom, scanFirst_eq_none sessionValidator stream h]

/-- Witness for handshake_strictly_ordered: a well-behaved transport
produces exactly the canonical trace, and a transport with no session
response at all fails. -/
theorem handshake_strictly_ordered_witness :
    runHandshake
      [mkMsg 0 (RpcResult.usid "U1"),
       mkMsg 1 (RpcResult.flag true),
       mkMsg 2 (RpcResult.flag true),
       mkMsg 3 RpcResult.plain,
       mkMsg 4 RpcResult.plain,
       mkMsg 5 RpcResult.plain,
       mkMsg 6 RpcResult.plain,
       mkMsg 7 (RpcResult.flag true)] = some fullHandshakeTrace
    ∧ runHandshake [mkMsg 3 RpcResult.plain] = none := by
  constructor
  · have h : runHandshake
        [mkMsg 0 (RpcResult.usid "U1"),
         mkMsg 1 (RpcResult.flag true),
         mkMsg 2 (RpcResult.flag true),
         mkMsg 3 RpcResult.plain,
         mkMsg 4 RpcResult.plain,
         mkMsg 5 RpcResult.plain,
         mkMsg 6 RpcResult.plain,
         mkMsg 7 (RpcResult.flag true)]
        = some (canonicalTrace 0 8) := by decide
    rw [h]
    have := handshake_strictly_ordered.1
      [mkMsg 0 (RpcResult.usid "U1"),
       mkMsg 1 (RpcResult.flag true),
       mkMsg 2 (RpcResult.flag true),
       mkMsg 3 RpcResult.plain,
       mkMsg 4 RpcResult.plain,
       mkMsg 5 RpcResult.plain,
       mkMsg 6 RpcResult.plain,
       mkMsg 7 (RpcResult.flag true)] (canonicalTrace 0 8) h
    rw [← this]
  · exact handshake_strictly_ordered.2.2.2.1 [mkMsg 3 RpcResult.plain] (by decide)

/-!
Per-step response waits with time.  StationMonitor.waitForMessage
(src/unnamed/part_007 lines 110-131) installs a handler and a 5000 ms
timeout; ChiangMaiClient's handleWSMessage / handleWSMessage1 /
handleWSMessage2 (src/chaigmai.js lines 256-318) install the same kind of
handler but NO timeout, so their promise settles only when a matching
message arrives, however late.  A timed inbound stream lists messages with
their arrival times in ms; messages arriving before the handler is
installed (time below the start instant) are not seen by it.
-/

structure TMsg where
  time : Nat
  msg : Msg
  deriving DecidableEq, Repr

/-- StationMonitor.waitForMessage installed at instant s: the first
matching message at or after s resolves the wait if it arrives within
5000 ms of s, otherwise the timeout fires first and the wait rejects
(`none` = rejected with Message timeout). -/
def waitForMessageSM (p : Msg → Bool) (s : Nat) : List TMsg → Option TMsg
  | [] => none
  | m :: rest =>
      if m.time < s then waitForMessageSM p s rest
      else if p m.msg then (if m.time ≤ s + 5000 then some m else none)
      else waitForMessageSM p s rest

/-- A ChiangMaiClient handleWSMessage-style wait installed at instant s:
no timeout, the first matching message resolves it no matter how late;
`none` means the promise never settles at all within the stream. -/
def waitCMNoTimeout (p : Msg → Bool) (s : Nat) : List TMsg → Option TMsg
  | [] => none
  | m :: rest =>
      if m.time < s then waitCMNoTimeout p s rest
      else if p m.msg then some m
      else waitCMNoTimeout p s rest

/-- The StationMonitor handshake with time: each step resolves sendData
after its 1000 ms delay, installs waitForMessage, and a step that times out
rejects, aborting the whole handshake with a caught error (Except.error,
carrying the failing step index) that is reported, not a crash. -/
def timedStepsFrom : List (Msg → Bool) → Nat → Nat → List TMsg → Except Nat Nat
  | [], _, s, _ => Except.ok s
  | p :: ps, k, s, stream =>
      match waitForMessageSM p (s + 1000) stream with
      | some m => timedStepsFrom ps (k + 1) m.time stream
      | none => Except.error k

def timedHandshake (stream : List TMsg) : Except Nat Nat :=
  timedStepsFrom stepValidators 0 0 stream

/-- Claim C7 (counterexample): a subscribe response arriving only after
7,000,000 ms (about two hours) still resolves the ChiangMaiClient per-step
wait — the wait is not bounded by any few-second timeout — while the
StationMonitor wait on the same stream has timed out. -/
theorem chaigmai_wait_unbounded_counterexample :
    waitCMNoTimeout (flagValidator 1) 0 [⟨7000000, mkMsg 1 (RpcResult.flag true)⟩]
      = some ⟨7000000, mkMsg 1 (RpcResult.flag true)⟩
    ∧ waitForMessageSM (flagValidator 1) 0 [⟨7000000, mkMsg 1 (RpcResult.flag true)⟩]
      = none := by
  constructor <;> decide

lemma waitForMessageSM_cons (p : Msg → Bool) (s : Nat) (x : TMsg)
    (rest : List TMsg) :
    waitForMessageSM p s (x :: rest)
      = if x.time < s then waitForMessageSM p s rest
        else if p x.msg then (if x.time ≤ s + 5000 then some x else none)
        else waitForMessageSM p s rest := rfl

lemma waitForMessageSM_bounds (p : Msg → Bool) (s : Nat) (stream : List TMsg)
    (m : TMsg) (h : waitForMessageSM p s stream = some m) :
    s ≤ m.time ∧ m.time ≤ s + 5000 ∧ p m.msg = true := by
  induction stream with
  | nil => cases h
  | cons x rest ih =>
      rw [waitForMessageSM_cons] at h
      by_cases hx : x.time < s
      · rw [if_pos hx] at h
        exact ih h
      · rw [if_neg hx] at h
        by_cases hp : p x.msg = true
        · rw [if_pos hp] at h
          by_cases ht : x.time ≤ s + 5000
          · rw [if_pos ht] at h
            cases h
            exact ⟨Nat.le_of_not_lt hx, ht, hp⟩
          · rw [if_neg ht] at h
            cases h
        · rw [if_neg hp] at h
          exact ih h

lemma waitForMessageSM_none_of_all_fail (p : Msg → Bool) (s : Nat)
    (stream : List TMsg) (h : ∀ m ∈ stream, p m.msg = false) :
    waitForMessageSM p s stream = none := by
  induction stream with
  | nil => rfl
  | cons x rest ih =>
      unfold waitForMessageSM
      rw [h x (List.mem_cons_self x rest)]
      simp only [Bool.false_eq_true, if_false]
      split
      · exact ih (fun y hy => h y (List.mem_cons_of_mem x hy))
      · exact ih (fun y hy => h y (List.mem_cons_of_mem x hy))

/-- Claim C7 (amended): the StationMonitor wait is bounded — it resolves
only with a matching message arriving within 5000 ms of its start, a step
with no valid session response makes the whole handshake abort with a
reported error value (a caught connection failure, not a crash) — while a
ChiangMaiClient-style wait has no timeout: a matching message resolves it
at any arrival time whatsoever. -/
theorem step_wait_bounded_only_in_station_monitor :
    (∀ p s stream m, waitForMessageSM p s stream = some m →
        s ≤ m.time ∧ m.time ≤ s + 5000 ∧ p m.msg = true)
    ∧ (∀ stream, (∀ m ∈ stream, sessionValidator m.msg = false) →
        timedHandshake stream = Except.error 0)
    ∧ (∀ (p : Msg → Bool) (t : Nat) (m : Msg), p m = true →
        waitCMNoTimeout p 0 [⟨t, m⟩] = some ⟨t, m⟩) := by
  refine ⟨waitForMessageSM_bounds, ?_, ?_⟩
  · intro stream h
    unfold timedHandshake stepValidators
    simp only [timedStepsFrom,
      waitForMessageSM_none_of_all_fail sessionValidator 1000 stream h]
  · intro p t m h
    unfold waitCMNoTimeout
    simp [h]

/-- Witness for step_wait_bounded_only_in_station_monitor. -/
theorem step_wait_bounded_only_in_station_monitor_witness :
    (0 ≤ (⟨2500, mkMsg 0 (RpcResult.usid "U1")⟩ : TMsg).time
      ∧ (⟨2500, mkMsg 0 (RpcResult.usid "U1")⟩ : TMsg).time ≤ 0 + 5000
      ∧ sessionValidator (⟨2500, mkMsg 0 (RpcResult.usid "U1")⟩ : TMsg).msg = true)
    ∧ timedHandshake [⟨100, mkMsg 3 RpcResult.plain⟩] = Except.error 0
    ∧ waitCMNoTimeout (flagValidator 2) 0 [⟨9999999, mkMsg 2 (RpcResult.flag true)⟩]
        = some ⟨9999999, mkMsg 2 (RpcResult.flag true)⟩ :=
  ⟨step_wait_bounded_only_in_station_monitor.1 sessionValidator 0
      [⟨2500, mkMsg 0 (RpcResult.usid "U1")⟩] ⟨2500, mkMsg 0 (RpcResult.usid "U1")⟩
      (by decide),
   step_wait_bounded_only_in_station_monitor.2.1 [⟨100, mkMsg 3 RpcResult.plain⟩]
      (by decide),
   step_wait_bounded_only_in_station_monitor.2.2 (flagValidator 2) 9999999
      (mkMsg 2 (RpcResult.flag true)) (by decide)⟩

/-!
StationMonitor.handleReconnect (src/unnamed/part_007 lines 374-389): on a
transport failure event, if reconnectAttempts is below
maxReconnectAttempts, increment it and schedule one more connect attempt;
otherwise log that the budget is exceeded and schedule nothing (terminal:
no path ever retries this station again).  A successful connection (the
open event, lines 73-79) resets reconnectAttempts to 0.  The state tracks
how many reconnect connect attempts have been scheduled in total.
-/

def maxReconnectAttempts : Nat := 5

structure ReconnState where
  attempts : Nat
  connects : Nat
  terminal : Bool
  deriving DecidableEq, Repr

inductive TransportEvent where
  | fail
  | success
  deriving DecidableEq, Repr

def reconnStep (st : ReconnState) : TransportEvent → ReconnState
  | .success => { st with attempts := 0 }
  | .fail =>
      if st.attempts < maxReconnectAttempts then
        { st with attempts := st.attempts + 1, connects := st.connects + 1 }
      else
        { st with terminal := true }

def reconnRun (evs : List TransportEvent) : ReconnState :=
  evs.foldl reconnStep ⟨0, 0, false⟩

/-- Claim C4 (counterexample): after exactly maxReconnectAttempts = 5
consecutive transport failures the supervisor is NOT terminal — the fifth
failure has just scheduled a fifth further connect attempt (connects goes
4 to 5); only the sixth consecutive failure stops scheduling. -/
theorem reconnect_budget_counterexample :
    (reconnRun (List.replicate maxReconnectAttempts .fail)).terminal = false
    ∧ (reconnRun (List.replicate maxReconnectAttempts .fail)).connects = 5
    ∧ (reconnRun (List.replicate 4 .fail)).connects = 4
    ∧ (reconnRun (List.replicate 6 .fail)).terminal = true := by
  refine ⟨by decide, by decide, by decide, by decide⟩

lemma reconnRun_replicate (n : Nat) :
    reconnRun (List.replicate n .fail)
      = ⟨min n maxReconnectAttempts, min n maxReconnectAttempts,
         decide (maxReconnectAttempts < n)⟩ := by
  induction n with
  | zero => decide
  | succ n ih =>
      unfold reconnRun at ih ⊢
      rw [List.replicate_succ', List.foldl_append, ih]
      simp only [List.foldl_cons, List.foldl_nil, reconnStep]
      by_cases h : n < maxReconnectAttempts
      · have h1 : min n maxReconnectAttempts = n := Nat.min_eq_left (Nat.le_of_lt h)
        have h2 : min (n + 1) maxReconnectAttempts = n + 1 :=
          Nat.min_eq_left (Nat.succ_le_of_lt h)
        have h3 : ¬ maxReconnectAttempts < n + 1 := by omega
        simp [h1, h2, h, h3]
        omega
      · have h1 : min n maxReconnectAttempts = maxReconnectAttempts :=
          Nat.min_eq_right (Nat.le_of_not_lt h)
        have h2 : min (n + 1) maxReconnectAttempts = maxReconnectAttempts := by
          omega
        have h3 : maxReconnectAttempts < n + 1 := by omega
        simp [h1, h2, h, h3, Nat.lt_irrefl]

/-- Claim C4 (amended): a streak of n consecutive transport failures from a
fresh state schedules min n maxReconnectAttempts reconnect attempts and
becomes terminal (stops scheduling) exactly when n exceeds
maxReconnectAttempts — i.e. after the initial loss plus
maxReconnectAttempts failed reconnects; a successful connection resets the
failure count to zero at any point. -/
theorem reconnect_budget_exhaustion :
    (∀ n : Nat, reconnRun (List.replicate n .fail)
        = ⟨min n maxReconnectAttempts, min n maxReconnectAttempts,
           decide (maxReconnectAttempts < n)⟩)
    ∧ (∀ evs, (reconnStep (reconnRun evs) .success).attempts = 0) := by
  exact ⟨reconnRun_replicate, fun evs => rfl⟩

/-!
ApiDataFetcher (src/unnamed/part_002).  fetchAndProcess (lines 340-361)
guards on errorCount at the top of every tick, increments errorCount on a
fetch failure and stops at maxErrors; processApiData (lines 210-245)
resets errorCount to 0 after successful processing and increments it (with
no immediate stop) when processing itself throws.  stop() clears the
interval, so a stopped fetcher ignores further ticks.
-/

def maxErrors : Nat := 5

structure FetchState where
  errorCount : Nat
  isRunning : Bool
  deriving DecidableEq, Repr

inductive FetchOutcome where
  | fetchFail
  | fetchOkProcessOk
  | fetchOkProcessFail
  deriving DecidableEq, Repr

/-- One tick of ApiDataFetcher.fetchAndProcess with the given outcome of
the fetch and of the subsequent processing. -/
def fetchTick (st : FetchState) (o : FetchOutcome) : FetchState :=
  if st.isRunning = false then st
  else if maxErrors ≤ st.errorCount then { st with isRunning := false }
  else
    match o with
    | .fetchFail =>
        if maxErrors ≤ st.errorCount + 1 then
          { errorCount := st.errorCount + 1, isRunning := false }
        else { st with errorCount := st.errorCount + 1 }
    | .fetchOkProcessOk => { st with errorCount := 0 }
    | .fetchOkProcessFail => { st with errorCount := st.errorCount + 1 }

/-- A started fetcher run over a sequence of tick outcomes. -/
def fetchRun (os : List FetchOutcome) : FetchState :=
  os.foldl fetchTick ⟨0, true⟩

lemma fetchRun_replicate_fail (n : Nat) :
    fetchRun (List.replicate n .fetchFail)
      = ⟨min n maxErrors, decide (n < maxErrors)⟩ := by
  induction n with
  | zero => decide
  | succ n ih =>
      unfold fetchRun at ih ⊢
      rw [List.replicate_succ', List.foldl_append, ih]
      simp only [List.foldl_cons, List.foldl_nil]
      unfold fetchTick
      by_cases h : n < maxErrors
      · have h1 : min n maxErrors = n := Nat.min_eq_left (Nat.le_of_lt h)
        by_cases h2 : n + 1 < maxErrors
        · have h3 : min (n + 1) maxErrors = n + 1 := by omega
          have h4 : ¬ maxErrors ≤ n := by omega
          have h5 : ¬ maxErrors ≤ n + 1 := by omega
          simp [h1, h2, h3, h4, h5, h]
        · have h3 : min (n + 1) maxErrors = maxErrors := by omega
          have h4 : ¬ maxErrors ≤ n := by omega
          have h5 : maxErrors ≤ n + 1 := by omega
          have h6 : n + 1 = maxErrors := by omega
          simp [h1, h2, h3, h4, h5, h, h6]
      · have h1 : min n maxErrors = maxErrors := by omega
        have h2 : min (n + 1) maxErrors = maxErrors := by omega
        have h3 : ¬ n + 1 < maxErrors := by omega
        simp [h1, h2, h, h3]

/-- Claim C9: after exactly maxErrors = 5 consecutive fetch failures the
poller has stopped itself (isRunning goes false at the fifth failure); any
shorter failure streak leaves it running, to retry on the next tick; a
successful fetch-and-process resets the consecutive-failure count to zero;
and a stopped fetcher processes nothing further. -/
theorem api_poller_stops_after_max_failures :
    (∀ n : Nat, fetchRun (List.replicate n .fetchFail)
        = ⟨min n maxErrors, decide (n < maxErrors)⟩)
    ∧ (∀ st : FetchState, st.isRunning = true → st.errorCount < maxErrors →
        (fetchTick st .fetchOkProcessOk).errorCount = 0)
    ∧ (∀ (st : FetchState) (o : FetchOutcome), st.isRunning = false →
        fetchTick st o = st) := by
  refine ⟨fetchRun_replicate_fail, ?_, ?_⟩
  · intro st hrun herr
    unfold fetchTick
    simp [hrun, Nat.not_le.mpr herr]
  · intro st o hstop
    unfold fetchTick
    simp [hstop]

/-- Witness for api_poller_stops_after_max_failures at concrete inputs. -/
theorem api_poller_stops_after_max_failures_witness :
    fetchRun (List.replicate 5 .fetchFail) = ⟨min 5 maxErrors, decide (5 < maxErrors)⟩
    ∧ (fetchTick ⟨3, true⟩ .fetchOkProcessOk).errorCount = 0
    ∧ fetchTick ⟨5, false⟩ .fetchFail = ⟨5, false⟩ :=
  ⟨api_poller_stops_after_max_failures.1 5,
   api_poller_stops_after_max_failures.2.1 ⟨3, true⟩ rfl (by decide),
   api_poller_stops_after_max_failures.2.2 ⟨5, false⟩ .fetchFail rfl⟩

/-!
Transport-kind classification.  ApiDataFetcher.isApiStation
(src/unnamed/part_002 lines 32-37) declares a station HTTP-polled exactly
when its address string starts with "http://" and contains "/data";
StationAnalyzer.analyzeStations (src/src/utils/station-analyzer.js lines
36-76) sends a station down the API branch exactly when isApiStation holds
and otherwise treats it as a WebSocket station (requiring name, ipAddress
and scene).  ApiDataFetcher.fetchApiData itself (lines 59-123) picks the
https client whenever the URL protocol is "https:", so the fetcher does
support https URLs even though isApiStation never classifies one as API.
String operations are modelled on character lists.
-/

/-- JS String.startsWith: pat is an initial segment of the list. -/
def strPre : List Char → List Char → Bool
  | [], _ => true
  | _ :: _, [] => false
  | a :: as, b :: bs => a == b && strPre as bs

def jsStartsWith (s pat : String) : Bool := strPre pat.toList s.toList

/-- JS String.includes: pat occurs contiguously somewhere in the list. -/
def hasSub (pat : List Char) : List Char → Bool
  | [] => strPre pat []
  | c :: t => strPre pat (c :: t) || hasSub pat t

def jsIncludes (s pat : String) : Bool := hasSub pat.toList s.toList

/-- ApiDataFetcher.isApiStation over the normalized address (null or
undefined address modelled as `none`, falsy empty string handled by
strPre itself). -/
def isApiStation : Option String → Bool
  | none => false
  | some ip => jsStartsWith ip "http://" && jsIncludes ip "/data"

inductive StationClass where
  | api
  | websocket
  | incomplete
  deriving DecidableEq, Repr

structure StationRow where
  name : Option String
  ipAddress : Option String
  scene : Option String
  deriving DecidableEq, Repr

/-- JS truthiness of an optional string field. -/
def truthyStr : Option String → Bool
  | none => false
  | some s => !(s == "")

/-- The per-station branch of StationAnalyzer.analyzeStations. -/
def classifyStation (st : StationRow) : StationClass :=
  if isApiStation st.ipAddress then
    if truthyStr st.name && truthyStr st.ipAddress then .api else .incomplete
  else
    if truthyStr st.name && truthyStr st.ipAddress && truthyStr st.scene then
      .websocket
    else .incomplete

inductive HttpClient where
  | insecure
  | secure
  deriving DecidableEq, Repr

/-- The client chosen inside ApiDataFetcher.fetchApiData from the URL
protocol. -/
def chooseClient (protocol : String) : HttpClient :=
  if protocol = "https:" then .secure else .insecure

lemma strPre_append_left (p1 p2 l : List Char)
    (h : strPre (p1 ++ p2) l = true) : strPre p1 l = true := by
  induction p1 generalizing l with
  | nil => rfl
  | cons a as ih =>
      cases l with
      | nil => exact absurd h (by simp [strPre])
      | cons b bs =>
          simp only [List.cons_append, strPre, Bool.and_eq_true] at h ⊢
          exact ⟨h.1, ih bs h.2⟩

lemma strPre_https_not_http (l : List Char)
    (h : strPre ("https://".toList) l = true) :
    strPre ("http://".toList) l = false := by
  rw [show "https://".toList = ['h', 't', 't', 'p', 's', ':', '/', '/'] from rfl] at h
  rw [show "http://".toList = ['h', 't', 't', 'p', ':', '/', '/'] from rfl]
  rcases l with _ | ⟨a, _ | ⟨b, _ | ⟨c, _ | ⟨d, _ | ⟨e, t⟩⟩⟩⟩⟩
  · simp [strPre] at h
  · simp [strPre, Bool.and_eq_true] at h
  · simp [strPre, Bool.and_eq_true] at h
  · simp [strPre, Bool.and_eq_true] at h
  · simp [strPre, Bool.and_eq_true] at h
  · simp only [strPre, Bool.and_eq_true, beq_iff_eq] at h
    obtain ⟨ha2, hb2, hc2, hd2, he2, _⟩ := h
    subst ha2; subst hb2; subst hc2; subst hd2; subst he2
    simp [strPre, beq_iff_eq]

/-- A string starting with "https://" never satisfies jsStartsWith for
"http://". -/
lemma jsStartsWith_https_not_http (s : String)
    (h : jsStartsWith s "https://" = true) : jsStartsWith s "http://" = false :=
  strPre_https_not_http s.toList h

/-- Claim C10: a complete station row goes down the API (HTTP-polled)
branch exactly when its address starts with "http://" and contains
"/data"; every complete row whose address starts with "https://" is
classified as a WebSocket station; yet the HTTP fetcher itself picks the
https client for an "https:" protocol, so it does support https URLs. -/
theorem api_station_classification (name ip scene : String)
    (hname : name ≠ "") (hip : ip ≠ "") (hscene : scene ≠ "") :
    (classifyStation ⟨some name, some ip, some scene⟩ = .api
      ↔ (jsStartsWith ip "http://" && jsIncludes ip "/data") = true)
    ∧ (jsStartsWith ip "https://" = true →
        classifyStation ⟨some name, some ip, some scene⟩ = .websocket)
    ∧ chooseClient "https:" = .secure := by
  have htr : truthyStr (some name) = true := by
    simp [truthyStr, hname]
  have htr2 : truthyStr (some ip) = true := by
    simp [truthyStr, hip]
  have htr3 : truthyStr (some scene) = true := by
    simp [truthyStr, hscene]
  refine ⟨?_, ?_, rfl⟩
  · unfold classifyStation isApiStation
    simp only [htr, htr2, Bool.and_self]
    constructor
    · intro h
      by_cases hapi : (jsStartsWith ip "http://" && jsIncludes ip "/data") = true
      · exact hapi
      · rw [if_neg (by exact fun hc => hapi hc)] at h
        split at h <;> cases h
    · intro h
      rw [if_pos h]
      simp
  · intro h
    have hfalse : isApiStation (some ip) = false := by
      show (jsStartsWith ip "http://" && jsIncludes ip "/data") = false
      rw [jsStartsWith_https_not_http ip h]
      rfl
    unfold classifyStation
    simp [hfalse, htr, htr2, htr3]

/-- Witness for api_station_classification: an http data endpoint is API,
the same endpoint over https is classified WebSocket. -/
theorem api_station_classification_witness :
    classifyStation ⟨some "R1", some "http://10.0.0.9/data", some "S1"⟩
      = StationClass.api
    ∧ classifyStation ⟨some "R1", some "https://10.0.0.9/data", some "S1"⟩
      = StationClass.websocket := by
  constructor
  · exact (api_station_classification "R1" "http://10.0.0.9/data" "S1"
      (by decide) (by decide) (by decide)).1.mpr (by decide)
  · exact (api_station_classification "R1" "https://10.0.0.9/data" "S1"
      (by decide) (by decide) (by decide)).2.1 (by decide)
